import Mathlib

/-!
Verification of the wuffle search-filter engine
(`src/packages/app/lib/apps/search/Search.js`).

The JavaScript code is shallowly embedded as follows:

* Issue records become a structure with `Option`-typed fields for the
  fields that may be absent on a record variant; reading a required
  sub-field through an absent value (which throws a `TypeError` in
  JavaScript) is modelled by `Except.error ()`.
* Every per-record matcher has type `Issue → Except Unit Bool`, where the
  `Bool` is the truthiness of the JavaScript return value (the call sites
  `!fn(arg)` and `filterFns.every(fn => fn(issue))` coerce the returned
  value to a boolean, so only truthiness is observable).
* The `store` collaborator (not part of the inspected sources) is a pair
  of functions, as described by the spec's collaborator interface.
* `parseSearch` and `parseTemporalFilter` live in `lib/util`, outside the
  inspected sources; they are modelled from the spec (see their doc
  comments).
* The compiled search filter returns `Bool × Bool`: the first component
  is the boolean returned to the caller, the second records whether the
  catch-all handler fired (i.e. whether `log.warn` reported an error to
  the diagnostic sink).
-/

namespace Wuffle

/-- A GitHub user, as read by the matchers (`user.login`). -/
structure User where
  login : String
deriving Repr, DecidableEq

/-- A label (`label.name`). -/
structure Label where
  name : String
deriving Repr, DecidableEq

/-- A milestone (`milestone.title`). -/
structure Milestone where
  title : String
deriving Repr, DecidableEq

/-- The target of an issue link (`link.target.key`). -/
structure LinkTarget where
  key : String
deriving Repr, DecidableEq

/-- An issue link (`link.type`, `link.target`). -/
structure Link where
  type : String
  target : LinkTarget
deriving Repr, DecidableEq

/-- A review; `review.user` may be absent on a malformed record, in which
case `review.user.login` throws. -/
structure Review where
  user : Option User
deriving Repr, DecidableEq

/-- A comment; `comment.user` may be absent on a malformed record, in
which case `comment.user.login` throws. -/
structure Comment where
  user : Option User
deriving Repr, DecidableEq

/-- The owning repository (`repository.name`, `repository.owner.login`). -/
structure Repository where
  name : String
  owner : User
deriving Repr, DecidableEq

/-- An issue / pull-request record. Fields that some record variants lack
are `Option`-typed; `none` models an absent (or, for `comments`,
non-array) JavaScript value. -/
structure Issue where
  number : Nat
  title : String
  body : String
  key : String
  state : String
  pull_request : Bool
  milestone : Option Milestone
  labels : Option (List Label)
  assignees : Option (List User)
  user : Option User
  requested_reviewers : Option (List User)
  reviews : Option (List Review)
  comments : Option (List Comment)
  links : Option (List Link)
  repository : Option Repository
  created_at : String
  updated_at : String
deriving Repr, DecidableEq

/-- The record-store collaborator, per the spec's external interface:
lookup-by-key and get-links. -/
structure Store where
  getIssueByKey : String → Option Issue
  getIssueLinks : Issue → List Link

/-- One parsed search term: `{qualifier, value, negated}`. An absent /
null value is modelled by the empty string (both are falsy in the
`if (!value)` check of the compiler). -/
structure Term where
  qualifier : String
  value : String
  negated : Bool
deriving Repr, DecidableEq

/-- `Modelled from the spec:` the link-type constants `CHILD_OF` and
`CLOSES` come from `lib/links`, which is not among the inspected sources;
§4.1 names them "child-of" and "closes". -/
def CHILD_LINK_TYPES (t : String) : Bool :=
  t == "child-of" || t == "closes"

/-- `filterNoop` from Search.js: always matches. -/
def filterNoop : Issue → Except Unit Bool :=
  fun _ => .ok true

/-- `filterReject` from Search.js: never matches. -/
def filterReject : Issue → Except Unit Bool :=
  fun _ => .ok false

/-- The character list of a string, lower-cased; models JavaScript
`s.toLowerCase()` (ASCII range, which is all the spec's examples use). -/
def lowerList (s : String) : List Char :=
  s.data.map Char.toLower

/-- Is `p` a contiguous sub-list of `l`? Models JavaScript
`String.prototype.includes` on the character lists. -/
def subListOf (p : List Char) : List Char → Bool
  | [] => p.isEmpty
  | c :: t => p.isPrefixOf (c :: t) || subListOf p t

/-- `includes(actual, pattern)` from Search.js:
`pattern && actual.toLowerCase().includes(pattern.toLowerCase())`.
The result is the truthiness of the JavaScript value (an empty pattern
short-circuits to the falsy empty string). -/
def includes (actual pattern : String) : Bool :=
  !pattern.data.isEmpty && subListOf (lowerList pattern) (lowerList actual)

/-- `fuzzyMatches(actual, pattern)` from Search.js:
`pattern && actual.toLowerCase().startsWith(pattern.toLowerCase())`. -/
def fuzzyMatches (actual pattern : String) : Bool :=
  !pattern.data.isEmpty && (lowerList pattern).isPrefixOf (lowerList actual)

/-- `textFilter` from Search.js: case-insensitive substring match against
`"#<number> <title>\n\n<body>"`. The factory lower-cases the pattern once
(`text = text.toLowerCase()`); `includes` lower-cases again, idempotently,
as in the source. -/
def textFilter (text : String) : Issue → Except Unit Bool :=
  let t := String.mk (lowerList text)
  fun issue =>
    .ok (includes ("#" ++ toString issue.number ++ " " ++ issue.title ++ "\n\n" ++ issue.body) t)

/-- `referenceFilter` from Search.js: looks up the issue named by the
value, collects the target keys of its links into `byKey`, and matches a
record whose key equals the value or appears in `byKey`. -/
def referenceFilter (store : Store) (text : String) : Issue → Except Unit Bool :=
  let issue := store.getIssueByKey text
  let links := match issue with
    | some i => store.getIssueLinks i
    | none => []
  let byKey := links.map fun link => link.target.key
  fun issue => .ok (issue.key == text || byKey.contains issue.key)

/-- `isFilter` from Search.js. `issue.assignees.length` throws when the
assignee list is absent, hence the `Except.error` branches. -/
def isFilter (value : String) : Issue → Except Unit Bool :=
  match value with
  | "assigned" => fun issue =>
      match issue.assignees with
      | none => .error ()
      | some l => .ok (!l.isEmpty)
  | "unassigned" => fun issue =>
      match issue.assignees with
      | none => .error ()
      | some l => .ok l.isEmpty
  | "closed" => fun issue => .ok (issue.state == "closed")
  | "open" => fun issue => .ok (issue.state == "open")
  | "issue" => fun issue => .ok (!issue.pull_request)
  | "pull" => fun issue => .ok issue.pull_request
  | "milestoned" => fun issue => .ok issue.milestone.isSome
  | "epic" => fun issue =>
      match issue.links with
      | none => .ok true
      | some links => .ok (!links.any fun link => CHILD_LINK_TYPES link.type)
  | _ => filterNoop

/-- `labelFilter` from Search.js: `(labels || []).some(...)` with
case-insensitive substring match on the label name. -/
def labelFilter (name : String) : Issue → Except Unit Bool :=
  fun issue => .ok ((issue.labels.getD []).any fun label => includes label.name name)

/-- `repoFilter` from Search.js. Reading `repository.owner.login` throws
when the repository is absent. -/
def repoFilter (name : String) : Issue → Except Unit Bool :=
  fun issue =>
    match issue.repository with
    | none => .error ()
    | some r => .ok (includes (r.owner.login ++ "/" ++ r.name) name)

/-- `milestoneFilter` from Search.js: `milestone && fuzzyMatches(...)`. -/
def milestoneFilter (name : String) : Issue → Except Unit Bool :=
  fun issue =>
    match issue.milestone with
    | none => .ok false
    | some m => .ok (fuzzyMatches m.title name)

/-- `authorFilter` from Search.js: `user && fuzzyMatches(user.login, name)`. -/
def authorFilter (name : String) : Issue → Except Unit Bool :=
  fun issue =>
    match issue.user with
    | none => .ok false
    | some u => .ok (fuzzyMatches u.login name)

/-- `assigneeFilter` from Search.js: `(assignees || []).some(...)`. -/
def assigneeFilter (name : String) : Issue → Except Unit Bool :=
  fun issue => .ok ((issue.assignees.getD []).any fun a => fuzzyMatches a.login name)

/-- Left-to-right scan of `reviews.some(review => fuzzyMatches(review.user.login, name))`:
throws at the first review whose `user` is absent, matching the
short-circuit order of `Array.prototype.some`. -/
def reviewsSome (name : String) : List Review → Except Unit Bool
  | [] => .ok false
  | r :: rest =>
    match r.user with
    | none => .error ()
    | some u => if fuzzyMatches u.login name then .ok true else reviewsSome name rest

/-- `reviewerFilter` from Search.js: false when `requested_reviewers` is
absent; otherwise requested reviewers, then `(reviews || [])`. -/
def reviewerFilter (name : String) : Issue → Except Unit Bool :=
  fun issue =>
    match issue.requested_reviewers with
    | none => .ok false
    | some rr =>
      if rr.any fun reviewer => fuzzyMatches reviewer.login name then .ok true
      else reviewsSome name (issue.reviews.getD [])

/-- Left-to-right scan of `comments.some(comment => fuzzyMatches(comment.user.login, name))`:
throws at the first comment whose `user` is absent. -/
def commentsSome (name : String) : List Comment → Except Unit Bool
  | [] => .ok false
  | c :: rest =>
    match c.user with
    | none => .error ()
    | some u => if fuzzyMatches u.login name then .ok true else commentsSome name rest

/-- `commentedFilter` from Search.js: false when the `comments` field is
absent or not an array (both modelled by `none`). -/
def commentedFilter (name : String) : Issue → Except Unit Bool :=
  fun issue =>
    match issue.comments with
    | none => .ok false
    | some cs => commentsSome name cs

/-- `involvesFilter` from Search.js: short-circuit disjunction of the
assignee, author, reviewer and commented matchers; an exception from an
evaluated disjunct propagates. -/
def involvesFilter (name : String) : Issue → Except Unit Bool :=
  fun issue => do
    if (← assigneeFilter name issue) then return true
    if (← authorFilter name issue) then return true
    if (← reviewerFilter name issue) then return true
    commentedFilter name issue

/-- A parsed temporal filter: the date portion and the optional
comparator, as returned by `parseTemporalFilter`. -/
structure TemporalFilter where
  date : String
  qualifier : Option String
deriving Repr, DecidableEq

/-- `Modelled from the spec:` `parseTemporalFilter` lives in `lib/util`,
outside the inspected sources. Per §4.2 the value string encodes an
optional comparator (`>`, `>=`, `<`, `<=`) followed by a date; an invalid
date yields the "no filter" sentinel (`none`). The modelled date grammar
is the calendar-date form `YYYY-MM-DD` used throughout the spec. -/
def parseDateChars (cs : List Char) : Option (List Char) :=
  match cs with
  | [y1, y2, y3, y4, '-', m1, m2, '-', d1, d2] =>
    if [y1, y2, y3, y4, m1, m2, d1, d2].all Char.isDigit then some cs else none
  | _ => none

/-- `Modelled from the spec:` comparator splitting of
`parseTemporalFilter` (`lib/util`, outside the inspected sources); the
remainder must be a valid date. -/
def parseTemporalFilter (value : String) : Option TemporalFilter :=
  let (q, rest) :=
    match value.data with
    | '>' :: '=' :: t => (some ">=", t)
    | '<' :: '=' :: t => (some "<=", t)
    | '>' :: t => (some ">", t)
    | '<' :: t => (some "<", t)
    | t => (none, t)
  (parseDateChars rest).map fun d => { date := String.mk d, qualifier := q }

/-- `Modelled from the spec:` `new Date(date).toISOString()` on a
calendar date `YYYY-MM-DD` produces the ISO 8601 instant at midnight UTC. -/
def toISOString (date : String) : String :=
  date ++ "T00:00:00.000Z"

/-- Lexicographic order on character lists by code point; this is the
JavaScript `<` on strings (code-unit order; the inputs here are ASCII). -/
def charsLt : List Char → List Char → Bool
  | [], [] => false
  | [], _ :: _ => true
  | _ :: _, [] => false
  | a :: as, b :: bs =>
    if a.toNat < b.toNat then true
    else if b.toNat < a.toNat then false
    else charsLt as bs

/-- JavaScript `a < b` on strings. -/
def strLt (a b : String) : Bool :=
  charsLt a.data b.data

/-- The `matchTemporal` closure from Search.js. JavaScript string
relational operators compare lexicographically, and `a >= b` is
`¬(a < b)` for strings. -/
def matchTemporal (dateString : String) (qualifier : Option String)
    (otherDateString : String) : Bool :=
  match qualifier with
  | some ">" => strLt dateString otherDateString
  | some ">=" => !strLt otherDateString dateString
  | some "<" => strLt otherDateString dateString
  | some "<=" => !strLt dateString otherDateString
  | _ => true

/-- `temporalFilter` from Search.js: invalid temporal filters are
ignored (`filterNoop`); otherwise the comparator closure is handed to the
wrapped factory. -/
def temporalFilter (fn : (String → Bool) → Issue → Except Unit Bool)
    (value : String) : Issue → Except Unit Bool :=
  match parseTemporalFilter value with
  | none => filterNoop
  | some filter => fn (matchTemporal (toISOString filter.date) filter.qualifier)

/-- The `created` entry of the registry: temporal match on `created_at`. -/
def createdFilter : String → Issue → Except Unit Bool :=
  temporalFilter fun m issue => .ok (m issue.created_at)

/-- The `updated` entry of the registry: temporal match on `updated_at`. -/
def updatedFilter : String → Issue → Except Unit Bool :=
  temporalFilter fun m issue => .ok (m issue.updated_at)

/-- The qualifier registry (the `filters` object of Search.js):
`filters[qualifier]` is `none` exactly for unknown qualifiers. -/
def filters (store : Store) : String → Option (String → Issue → Except Unit Bool)
  | "text" => some textFilter
  | "ref" => some (referenceFilter store)
  | "is" => some isFilter
  | "label" => some labelFilter
  | "repo" => some repoFilter
  | "milestone" => some milestoneFilter
  | "author" => some authorFilter
  | "assignee" => some assigneeFilter
  | "reviewer" => some reviewerFilter
  | "commented" => some commentedFilter
  | "involves" => some involvesFilter
  | "created" => some createdFilter
  | "updated" => some updatedFilter
  | _ => none

/-- The per-term compilation step of `getSearchFilter` (the body of
`terms.map`): empty value → `noopFilter`; `@me` without a user →
`noneFilter`, with a user → substitute the login; unknown qualifier →
`noopFilter`; otherwise invoke the factory and wrap in `!` when the term
is negated. -/
def compileTerm (store : Store) (user : Option User) (term : Term) :
    Issue → Except Unit Bool :=
  if term.value = "" then filterNoop
  else
    match (if term.value = "@me" then user.map User.login else some term.value) with
    | none => filterReject
    | some value =>
      match filters store term.qualifier with
      | none => filterNoop
      | some factoryFn =>
        let fn := factoryFn value
        if term.negated then fun issue => (fn issue).map fun b => !b
        else fn

/-- `filterFns.every(fn => fn(issue))`: left-to-right conjunction that
stops at the first falsy result and propagates the first exception. -/
def everyFn (issue : Issue) : List (Issue → Except Unit Bool) → Except Unit Bool
  | [] => .ok true
  | fn :: rest => do
    let b ← fn issue
    if b then everyFn issue rest else pure false

/-- The compiled search filter applied to one record, from a term list.
First component: the boolean returned to the caller; second component:
whether the `catch` handler fired and reported the record to the
diagnostic sink (`log.warn`). -/
def searchFilter (store : Store) (user : Option User) (terms : List Term)
    (issue : Issue) : Bool × Bool :=
  match everyFn issue (terms.map (compileTerm store user)) with
  | .ok b => (b, false)
  | .error _ => (false, true)

/-- Split a character list at every occurrence of `sep` (the separator is
dropped; empty fragments are kept, as with `String.prototype.split`). -/
def splitOnChar (sep : Char) : List Char → List (List Char)
  | [] => [[]]
  | c :: rest =>
    match splitOnChar sep rest with
    | [] => [[c]]
    | cur :: more => if c == sep then [] :: cur :: more else (c :: cur) :: more

/-- Re-join colon-separated fragments (the value of a term may itself
contain colons, as in `ref:ORG/REPO#5` does not, but `text:a:b` does). -/
def joinColons : List (List Char) → List Char
  | [] => []
  | [x] => x
  | x :: y :: rest => x ++ ':' :: joinColons (y :: rest)

/-- `Modelled from the spec:` the tokenizer (`parseSearch`, `lib/util`)
is outside the inspected sources. Per §6 each term is optionally prefixed
by `-` (negation) and optionally of the form `qualifier:value`; a term
without `qualifier:` is a bare `text` term. -/
def parseTerm (s : String) : Term :=
  let (negated, rest) :=
    match s.data with
    | '-' :: t => (true, t)
    | t => (false, t)
  match splitOnChar ':' rest with
  | [] => { qualifier := "text", value := "", negated := negated }
  | [t] => { qualifier := "text", value := String.mk t, negated := negated }
  | q :: vs => { qualifier := String.mk q, value := String.mk (joinColons vs), negated := negated }

/-- `Modelled from the spec:` tokenization of the whole search string
(whitespace-separated terms, empty fragments dropped). -/
def parseSearch (s : String) : List Term :=
  ((splitOnChar ' ' s.data).filter fun t => !t.isEmpty).map fun t => parseTerm (String.mk t)

/-- `getSearchFilter(search, user)` from Search.js, with the tokenizer
modelled from the spec. -/
def getSearchFilter (store : Store) (search : String) (user : Option User) :
    Issue → Bool × Bool :=
  searchFilter store user (parseSearch search)

/-! Test fixtures: an empty store and a baseline record. -/

/-- A store with no records and no links. -/
def testStore : Store :=
  ⟨fun _ => none, fun _ => []⟩

/-- A baseline well-formed open issue with no optional fields populated. -/
def testIssue : Issue := {
  number := 1
  title := "a title"
  body := "a body"
  key := "ORG/REPO#1"
  state := "open"
  pull_request := false
  milestone := none
  labels := none
  assignees := some []
  user := none
  requested_reviewers := none
  reviews := none
  comments := none
  links := none
  repository := none
  created_at := "2023-01-01T00:00:00Z"
  updated_at := "2023-01-01T00:00:00Z" }

/-! Helper lemmas about the evaluator and the per-term compiler. -/

/-- Unfolding the evaluator on a first term: an exception is caught and
reported, a falsy result short-circuits, a truthy result continues. -/
theorem searchFilter_cons (store : Store) (user : Option User) (t : Term)
    (rest : List Term) (issue : Issue) :
    searchFilter store user (t :: rest) issue =
      match compileTerm store user t issue with
      | .error _ => (false, true)
      | .ok false => (false, false)
      | .ok true => searchFilter store user rest issue := by
  unfold searchFilter
  simp only [List.map_cons, everyFn]
  rcases h : compileTerm store user t issue with e | b
  · rfl
  · cases b
    · rfl
    · rfl

/-- The evaluator on a single term. -/
theorem searchFilter_singleton (store : Store) (user : Option User) (t : Term)
    (issue : Issue) :
    searchFilter store user [t] issue =
      match compileTerm store user t issue with
      | .error _ => (false, true)
      | .ok b => (b, false) := by
  rw [searchFilter_cons]
  rcases compileTerm store user t issue with e | b
  · rfl
  · cases b <;> rfl

/-- A term whose resolved value reaches a registered factory compiles to
that factory's matcher (positive form). -/
theorem compileTerm_registered (store : Store) (user : Option User) (t : Term)
    (f : String → Issue → Except Unit Bool)
    (h1 : t.value ≠ "") (h2 : t.value ≠ "@me")
    (hf : filters store t.qualifier = some f) (hn : t.negated = false) :
    compileTerm store user t = f t.value := by
  unfold compileTerm
  simp [h1, h2, hf, hn]

/-- A negated term whose resolved value reaches a registered factory
compiles to the boolean negation of that factory's matcher. -/
theorem compileTerm_registered_neg (store : Store) (user : Option User) (t : Term)
    (f : String → Issue → Except Unit Bool)
    (h1 : t.value ≠ "") (h2 : t.value ≠ "@me")
    (hf : filters store t.qualifier = some f) (hn : t.negated = true) :
    compileTerm store user t = fun issue => (f t.value issue).map fun b => !b := by
  unfold compileTerm
  simp [h1, h2, hf, hn]

/-- If some matcher of the list raises on the record, the uncaught
conjunction either raises or returns false (an earlier matcher may still
short-circuit with a falsy result before the raising one runs). -/
theorem everyFn_of_mem_error (issue : Issue)
    (fns : List (Issue → Except Unit Bool))
    (h : ∃ fn ∈ fns, fn issue = .error ()) :
    everyFn issue fns = .error () ∨ everyFn issue fns = .ok false := by
  induction fns with
  | nil => simp at h
  | cons fn rest ih =>
    obtain ⟨g, hg, hge⟩ := h
    rcases hfn : fn issue with e | b
    · left
      simp only [everyFn, hfn]
      rfl
    · rcases List.mem_cons.mp hg with rfl | hgr
      · rw [hfn] at hge
        exact absurd hge (by simp)
      · cases b
        · right
          simp only [everyFn, hfn]
          rfl
        · have := ih ⟨g, hgr, hge⟩
          simpa [everyFn, hfn] using this

/-- A successfully parsed temporal value is neither the empty string nor
the `@me` sentinel (so it reaches the temporal factory unchanged). -/
theorem parseTemporalFilter_ne (v : String) (f : TemporalFilter)
    (h : parseTemporalFilter v = some f) : v ≠ "" ∧ v ≠ "@me" := by
  constructor
  · rintro rfl
    rw [show parseTemporalFilter "" = none from rfl] at h
    exact Option.noConfusion h
  · rintro rfl
    rw [show parseTemporalFilter "@me" = none from rfl] at h
    exact Option.noConfusion h

/-- When every comment carries an author, the left-to-right scan returns
normally with the disjunction of the per-comment fuzzy matches. -/
theorem commentsSome_of_users (name : String) (cs : List Comment)
    (h : ∀ c ∈ cs, c.user.isSome) :
    commentsSome name cs =
      .ok (cs.any fun c =>
        match c.user with
        | some u => fuzzyMatches u.login name
        | none => false) := by
  induction cs with
  | nil => rfl
  | cons c rest ih =>
    rcases hu : c.user with _ | u
    · have := h c (List.mem_cons_self c rest)
      rw [hu] at this
      exact absurd this (by simp)
    · have hr := ih fun x hx => h x (List.mem_cons_of_mem c hx)
      rcases hm : fuzzyMatches u.login name
      · simp [commentsSome, hu, hm, hr]
      · simp [commentsSome, hu, hm]

/-- Membership in the list of mapped link-target keys is the existence of
a link with that target key. -/
theorem contains_map_target (l : List Link) (a : String) :
    (l.map fun link => link.target.key).contains a =
      l.any fun link => link.target.key == a := by
  induction l with
  | nil => rfl
  | cons x rest ih =>
    simp only [List.map_cons, List.contains_cons, List.any_cons, ih]
    rw [Bool.beq_comm]

/-- For a nonempty pattern, the per-comment fuzzy match is the plain
case-insensitive prefix test on the author login. -/
theorem any_fuzzy_eq_prefix_test (name : String) (hne : name.data.isEmpty = false)
    (cs : List Comment) :
    (cs.any fun c =>
      match c.user with
      | some u => fuzzyMatches u.login name
      | none => false) =
      cs.any fun c =>
        match c.user with
        | some u => (lowerList name).isPrefixOf (lowerList u.login)
        | none => false := by
  induction cs with
  | nil => rfl
  | cons c rest ih =>
    simp only [List.any_cons, ih]
    rcases c.user with _ | u
    · rfl
    · simp [fuzzyMatches, hne]

/-! Claim theorems. -/

/-- Claim C1: the compiled predicate never propagates a matcher exception
to the caller. If any per-term matcher raises on the record, the compiled
predicate returns `false`; when the evaluation itself hits the exception,
the catch handler additionally reports the record to the diagnostic sink
(second component `true`), and when no exception occurs the evaluator
returns the plain conjunction without any report. -/
theorem search_filter_catches_matcher_errors (store : Store) (user : Option User)
    (terms : List Term) (issue : Issue) :
    ((∃ t ∈ terms, compileTerm store user t issue = .error ()) →
      (searchFilter store user terms issue).1 = false)
    ∧ (∀ e, everyFn issue (terms.map (compileTerm store user)) = .error e →
      searchFilter store user terms issue = (false, true))
    ∧ (∀ b, everyFn issue (terms.map (compileTerm store user)) = .ok b →
      searchFilter store user terms issue = (b, false)) := by
  refine ⟨fun h => ?_, fun e he => ?_, fun b hb => ?_⟩
  · obtain ⟨t, ht, hte⟩ := h
    have hm : ∃ fn ∈ terms.map (compileTerm store user), fn issue = .error () :=
      ⟨compileTerm store user t, List.mem_map_of_mem _ ht, hte⟩
    rcases everyFn_of_mem_error issue _ hm with he | hf
    · simp [searchFilter, he]
    · simp [searchFilter, hf]
  · simp [searchFilter, he]
  · simp [searchFilter, hb]

/-- Witness for C1: an `is:assigned` term raises on a record whose
assignee list is absent; the compiled predicate returns `false` and the
record is reported. -/
theorem search_filter_catches_matcher_errors_witness :
    (searchFilter testStore none [⟨"is", "assigned", false⟩]
      { testIssue with assignees := none }).1 = false
    ∧ searchFilter testStore none [⟨"is", "assigned", false⟩]
      { testIssue with assignees := none } = (false, true) := by
  have h := search_filter_catches_matcher_errors testStore none
    [⟨"is", "assigned", false⟩] { testIssue with assignees := none }
  exact ⟨h.1 ⟨⟨"is", "assigned", false⟩, List.mem_singleton.mpr rfl, rfl⟩, h.2.1 () rfl⟩

/-- Claim C2: the empty search expression compiles to the always-true
predicate; a term with empty value compiles to `filterNoop` regardless of
qualifier and negation, so it does not constrain the conjunction. -/
theorem empty_search_and_empty_value_match_all (store : Store) (user : Option User) :
    (∀ issue : Issue, getSearchFilter store "" user issue = (true, false))
    ∧ (∀ (q : String) (n : Bool), compileTerm store user ⟨q, "", n⟩ = filterNoop)
    ∧ (∀ (q : String) (n : Bool) (rest : List Term) (issue : Issue),
      searchFilter store user (⟨q, "", n⟩ :: rest) issue =
        searchFilter store user rest issue) :=
  ⟨fun _ => rfl, fun _ _ => rfl, fun _ _ _ _ => rfl⟩

/-- Counterexample to claim C3 as stated: the qualifier `foo` is not in
the registry, yet the term `foo:@me`, compiled with no current user,
rejects a record that the empty term list accepts — the `@me` check of
the compiler precedes the registry lookup. -/
theorem unknown_qualifier_me_counterexample :
    filters testStore "foo" = none
    ∧ (searchFilter testStore none [⟨"foo", "@me", false⟩] testIssue).1 = false
    ∧ (searchFilter testStore none [] testIssue).1 = true :=
  ⟨rfl, rfl, rfl⟩

/-- Claim C3 (amended): a term whose qualifier is not in the registry
compiles to the always-true predicate — provided its value is not the
`@me` sentinel with no user supplied, which the compiler resolves first —
so dropping the term leaves the compiled predicate extensionally
unchanged. -/
theorem unknown_qualifier_compiles_to_noop (store : Store) (user : Option User)
    (t : Term) (hq : filters store t.qualifier = none)
    (hme : t.value = "@me" → user ≠ none) :
    compileTerm store user t = filterNoop
    ∧ ∀ (rest : List Term) (issue : Issue),
      searchFilter store user (t :: rest) issue = searchFilter store user rest issue := by
  have hc : compileTerm store user t = filterNoop := by
    unfold compileTerm
    by_cases hv : t.value = ""
    · simp [hv]
    · by_cases hv2 : t.value = "@me"
      · rcases hu : user with _ | u
        · exact absurd hu (hme hv2)
        · simp [hv, hv2, hq]
      · simp [hv, hv2, hq]
  refine ⟨hc, fun rest issue => ?_⟩
  rw [searchFilter_cons, hc]
  rfl

/-- Witness for the amended C3: `foo:bar` compiles to the always-true
predicate and dropping it does not change the result. -/
theorem unknown_qualifier_compiles_to_noop_witness :
    compileTerm testStore none ⟨"foo", "bar", false⟩ = filterNoop
    ∧ searchFilter testStore none [⟨"foo", "bar", false⟩] testIssue =
      searchFilter testStore none [] testIssue := by
  have h := unknown_qualifier_compiles_to_noop testStore none ⟨"foo", "bar", false⟩
    rfl (fun hv => absurd hv (by decide))
  exact ⟨h.1, h.2 [] testIssue⟩

/-- Claim C4: a term with the literal value `@me` compiles to the
always-false predicate when no user is supplied; with a user it is
compiled as if its value were the user's login (for logins that are not
themselves degenerate compile-time sentinels); in particular,
`author:@me` under user login "alice" matches exactly the records whose
user login case-insensitively starts with "alice". -/
theorem me_substitution (store : Store) (t : Term) (hv : t.value = "@me") :
    compileTerm store none t = filterReject
    ∧ (∀ u : User, u.login ≠ "" → u.login ≠ "@me" →
      compileTerm store (some u) t =
        compileTerm store (some u) { qualifier := t.qualifier, value := u.login, negated := t.negated })
    ∧ (∀ issue : Issue,
      (searchFilter store (some { login := "alice" }) [⟨"author", "@me", false⟩] issue).1 =
        match issue.user with
        | some u => (lowerList "alice").isPrefixOf (lowerList u.login)
        | none => false) := by
  refine ⟨?_, fun u hu1 hu2 => ?_, fun issue => ?_⟩
  · unfold compileTerm
    simp [hv]
  · conv_rhs => unfold compileTerm
    unfold compileTerm
    simp [hv, hu1, hu2]
  · have hc : compileTerm store (some { login := "alice" }) ⟨"author", "@me", false⟩ =
        authorFilter "alice" := rfl
    rw [searchFilter_singleton, hc]
    unfold authorFilter
    rcases issue.user with _ | u
    · rfl
    · simp [fuzzyMatches, lowerList]

/-- Witness for C4: `author:@me` with no user rejects everything; with
user "alice" it is the `author:alice` term, which accepts the record
authored by "Alice99" and rejects the record authored by "balice". -/
theorem me_substitution_witness :
    compileTerm testStore none ⟨"author", "@me", false⟩ = filterReject
    ∧ compileTerm testStore (some ⟨"alice"⟩) ⟨"author", "@me", false⟩ =
      compileTerm testStore (some ⟨"alice"⟩) ⟨"author", "alice", false⟩
    ∧ (searchFilter testStore (some ⟨"alice"⟩) [⟨"author", "@me", false⟩]
      { testIssue with user := some ⟨"Alice99"⟩ }).1 = true
    ∧ (searchFilter testStore (some ⟨"alice"⟩) [⟨"author", "@me", false⟩]
      { testIssue with user := some ⟨"balice"⟩ }).1 = false := by
  have h := me_substitution testStore ⟨"author", "@me", false⟩ rfl
  refine ⟨h.1, h.2.1 ⟨"alice"⟩ (by decide) (by decide), ?_, ?_⟩
  · rw [h.2.2 { testIssue with user := some ⟨"Alice99"⟩ }]
    rfl
  · rw [h.2.2 { testIssue with user := some ⟨"balice"⟩ }]
    rfl

/-- Counterexample to claim C5 as stated: the values "xyz" and "@me" do
not parse as temporal filters, yet `-created:xyz` compiles to the
always-false predicate (the factory noop is wrapped by the negation), and
`created:@me` with no user compiles to the always-false predicate (the
`@me` rule preempts the temporal factory) — neither term compiles to the
always-true predicate. -/
theorem temporal_invalid_counterexample :
    parseTemporalFilter "xyz" = none
    ∧ (searchFilter testStore none [⟨"created", "xyz", true⟩] testIssue).1 = false
    ∧ parseTemporalFilter "@me" = none
    ∧ (searchFilter testStore none [⟨"created", "@me", false⟩] testIssue).1 = false :=
  ⟨rfl, rfl, rfl, rfl⟩

/-- Claim C5 (amended): for a non-negated created/updated term whose
value is not the `@me` sentinel, an unparsable value makes the term
compile to the always-true predicate (a negated such term therefore
compiles to always-false); and a parsed comparator-less (bare-date)
filter makes the temporal matcher return true for every record. -/
theorem temporal_invalid_defaults (store : Store) (user : Option User) :
    (∀ (v q : String), q = "created" ∨ q = "updated" → v ≠ "@me" →
      parseTemporalFilter v = none →
      compileTerm store user ⟨q, v, false⟩ = filterNoop)
    ∧ (∀ (v q : String), q = "created" ∨ q = "updated" → v ≠ "" → v ≠ "@me" →
      parseTemporalFilter v = none →
      ∀ issue : Issue, compileTerm store user ⟨q, v, true⟩ issue = .ok false)
    ∧ (∀ (v d : String) (issue : Issue),
      parseTemporalFilter v = some { date := d, qualifier := none } →
      createdFilter v issue = .ok true ∧ updatedFilter v issue = .ok true) := by
  refine ⟨fun v q hq hme hp => ?_, fun v q hq hv hme hp issue => ?_, fun v d issue hp => ?_⟩
  · unfold compileTerm
    by_cases hv : v = ""
    · simp [hv]
    · rcases hq with rfl | rfl
      · simp [hv, hme, filters, createdFilter, temporalFilter, hp]
      · simp [hv, hme, filters, updatedFilter, temporalFilter, hp]
  · unfold compileTerm
    rcases hq with rfl | rfl
    · simp only [hv, hme, filters, createdFilter, temporalFilter, hp, if_neg, if_false]
      simp [hv, hme]
      rfl
    · simp only [hv, hme, filters, updatedFilter, temporalFilter, hp, if_neg, if_false]
      simp [hv, hme]
      rfl
  · constructor
    · unfold createdFilter temporalFilter
      rw [hp]
      rfl
    · unfold updatedFilter temporalFilter
      rw [hp]
      rfl

/-- Witness for the amended C5: `created:xyz` compiles to the noop
matcher, `-created:xyz` evaluates to false, and the bare date
`created:2023-01-01` (comparator-less) matches the baseline record. -/
theorem temporal_invalid_defaults_witness :
    compileTerm testStore none ⟨"created", "xyz", false⟩ = filterNoop
    ∧ compileTerm testStore none ⟨"created", "xyz", true⟩ testIssue = .ok false
    ∧ createdFilter "2023-01-01" testIssue = .ok true := by
  have h := temporal_invalid_defaults testStore none
  exact ⟨h.1 "xyz" "created" (Or.inl rfl) (by decide) rfl,
    h.2.1 "xyz" "created" (Or.inl rfl) (by decide) (by decide) rfl testIssue,
    (h.2.2 "2023-01-01" "2023-01-01" testIssue rfl).1⟩

/-- A non-negated `created` term with a successfully parsed value
compiles to the temporal matcher over `created_at`. -/
theorem compileTerm_created (store : Store) (user : Option User) (v : String)
    (f : TemporalFilter) (hp : parseTemporalFilter v = some f) :
    compileTerm store user ⟨"created", v, false⟩ =
      fun issue => .ok (matchTemporal (toISOString f.date) f.qualifier issue.created_at) := by
  obtain ⟨h1, h2⟩ := parseTemporalFilter_ne v f hp
  rw [compileTerm_registered store user ⟨"created", v, false⟩ createdFilter h1 h2 rfl rfl]
  unfold createdFilter temporalFilter
  rw [hp]

/-- A non-negated `updated` term with a successfully parsed value
compiles to the temporal matcher over `updated_at`. -/
theorem compileTerm_updated (store : Store) (user : Option User) (v : String)
    (f : TemporalFilter) (hp : parseTemporalFilter v = some f) :
    compileTerm store user ⟨"updated", v, false⟩ =
      fun issue => .ok (matchTemporal (toISOString f.date) f.qualifier issue.updated_at) := by
  obtain ⟨h1, h2⟩ := parseTemporalFilter_ne v f hp
  rw [compileTerm_registered store user ⟨"updated", v, false⟩ updatedFilter h1 h2 rfl rfl]
  unfold updatedFilter temporalFilter
  rw [hp]

/-- Claim C6: a `created` term with comparator `>` and a valid date `D`
matches exactly the records whose `created_at` ISO string is
lexicographically greater than `D` normalized to an ISO string; the
analogous statements hold for `>=`, `<`, `<=` and for `updated` against
`updated_at`; on the spec's fixture, `created:>2023-03-01` rejects the
record created at "2023-01-01T00:00:00Z" and accepts the one created at
"2023-06-01T00:00:00Z". -/
theorem temporal_comparison_semantics (store : Store) (user : Option User)
    (v d : String) (issue : Issue) :
    (parseTemporalFilter v = some { date := d, qualifier := some ">" } →
      (searchFilter store user [⟨"created", v, false⟩] issue).1 =
        strLt (toISOString d) issue.created_at)
    ∧ (parseTemporalFilter v = some { date := d, qualifier := some ">=" } →
      (searchFilter store user [⟨"created", v, false⟩] issue).1 =
        !strLt issue.created_at (toISOString d))
    ∧ (parseTemporalFilter v = some { date := d, qualifier := some "<" } →
      (searchFilter store user [⟨"created", v, false⟩] issue).1 =
        strLt issue.created_at (toISOString d))
    ∧ (parseTemporalFilter v = some { date := d, qualifier := some "<=" } →
      (searchFilter store user [⟨"created", v, false⟩] issue).1 =
        !strLt (toISOString d) issue.created_at)
    ∧ (parseTemporalFilter v = some { date := d, qualifier := some ">" } →
      (searchFilter store user [⟨"updated", v, false⟩] issue).1 =
        strLt (toISOString d) issue.updated_at)
    ∧ (parseTemporalFilter v = some { date := d, qualifier := some ">=" } →
      (searchFilter store user [⟨"updated", v, false⟩] issue).1 =
        !strLt issue.updated_at (toISOString d))
    ∧ (parseTemporalFilter v = some { date := d, qualifier := some "<" } →
      (searchFilter store user [⟨"updated", v, false⟩] issue).1 =
        strLt issue.updated_at (toISOString d))
    ∧ (parseTemporalFilter v = some { date := d, qualifier := some "<=" } →
      (searchFilter store user [⟨"updated", v, false⟩] issue).1 =
        !strLt (toISOString d) issue.updated_at)
    ∧ (searchFilter store user [⟨"created", ">2023-03-01", false⟩]
        { issue with created_at := "2023-01-01T00:00:00Z" }).1 = false
    ∧ (searchFilter store user [⟨"created", ">2023-03-01", false⟩]
        { issue with created_at := "2023-06-01T00:00:00Z" }).1 = true := by
  refine ⟨fun hp => ?_, fun hp => ?_, fun hp => ?_, fun hp => ?_,
    fun hp => ?_, fun hp => ?_, fun hp => ?_, fun hp => ?_, ?_, ?_⟩
  · rw [searchFilter_singleton, compileTerm_created store user v _ hp]
    rfl
  · rw [searchFilter_singleton, compileTerm_created store user v _ hp]
    rfl
  · rw [searchFilter_singleton, compileTerm_created store user v _ hp]
    rfl
  · rw [searchFilter_singleton, compileTerm_created store user v _ hp]
    rfl
  · rw [searchFilter_singleton, compileTerm_updated store user v _ hp]
    rfl
  · rw [searchFilter_singleton, compileTerm_updated store user v _ hp]
    rfl
  · rw [searchFilter_singleton, compileTerm_updated store user v _ hp]
    rfl
  · rw [searchFilter_singleton, compileTerm_updated store user v _ hp]
    rfl
  · rw [searchFilter_singleton,
      compileTerm_created store user ">2023-03-01" { date := "2023-03-01", qualifier := some ">" } rfl]
    rfl
  · rw [searchFilter_singleton,
      compileTerm_created store user ">2023-03-01" { date := "2023-03-01", qualifier := some ">" } rfl]
    rfl

/-- Witness for C6: `created:>2023-03-01` evaluated against the baseline
record, whose `created_at` is "2023-01-01T00:00:00Z", yields exactly the
lexicographic comparison against the normalized date (which is false
here), and against the same record updated to June it yields true. -/
theorem temporal_comparison_semantics_witness :
    (searchFilter testStore none [⟨"created", ">2023-03-01", false⟩] testIssue).1 =
      strLt (toISOString "2023-03-01") testIssue.created_at
    ∧ (searchFilter testStore none [⟨"created", ">2023-03-01", false⟩]
        { testIssue with created_at := "2023-06-01T00:00:00Z" }).1 = true := by
  have h := temporal_comparison_semantics testStore none ">2023-03-01" "2023-03-01" testIssue
  exact ⟨h.1 rfl, h.2.2.2.2.2.2.2.2.2⟩

/-- Counterexample to claim C7 as stated: for the single-term searches
`foo:bar` and `-foo:bar` both compiled predicates return true on the
baseline record, although no matcher throws on it — the unknown-qualifier
noop is returned before the negation is applied, so the two predicates
are not complements. -/
theorem negation_not_complement_counterexample :
    (searchFilter testStore none [⟨"foo", "bar", false⟩] testIssue).1 = true
    ∧ (searchFilter testStore none [⟨"foo", "bar", true⟩] testIssue).1 = true
    ∧ compileTerm testStore none ⟨"foo", "bar", true⟩ testIssue = .ok true :=
  ⟨rfl, rfl, rfl⟩

/-- Claim C7 (amended): for a single term whose value is nonempty and not
the `@me` sentinel and whose qualifier is in the registry, the predicates
compiled from the term and its negation are exact complements on every
record where the underlying matcher returns normally, and both return
false on a record where the matcher throws. (For empty values, unresolved
`@me`, and unknown qualifiers the compiler returns a constant predicate
before applying the negation, so the two searches there are not
complements.) -/
theorem negation_complements_registered (store : Store) (user : Option User)
    (t : Term) (f : String → Issue → Except Unit Bool)
    (h1 : t.value ≠ "") (h2 : t.value ≠ "@me")
    (hf : filters store t.qualifier = some f) (issue : Issue) :
    (∀ b, f t.value issue = .ok b →
      (searchFilter store user [{ t with negated := false }] issue).1 = b
      ∧ (searchFilter store user [{ t with negated := true }] issue).1 = !b)
    ∧ (∀ e, f t.value issue = .error e →
      (searchFilter store user [{ t with negated := false }] issue).1 = false
      ∧ (searchFilter store user [{ t with negated := true }] issue).1 = false) := by
  have hpos : compileTerm store user { t with negated := false } = f t.value :=
    compileTerm_registered store user { t with negated := false } f h1 h2 hf rfl
  have hneg : compileTerm store user { t with negated := true } =
      fun issue => (f t.value issue).map fun b => !b :=
    compileTerm_registered_neg store user { t with negated := true } f h1 h2 hf rfl
  refine ⟨fun b hb => ?_, fun e he => ?_⟩
  · rw [searchFilter_singleton, searchFilter_singleton, hpos, hneg]
    simp [hb, Except.map]
  · rw [searchFilter_singleton, searchFilter_singleton, hpos, hneg]
    simp [he, Except.map]

/-- Witness for the amended C7: `author:alice` and `-author:alice` are
complements on a record authored by "alice", and both reject a record on
which the `is:assigned` matcher throws (absent assignee list). -/
theorem negation_complements_registered_witness :
    ((searchFilter testStore none [⟨"author", "alice", false⟩]
        { testIssue with user := some ⟨"alice"⟩ }).1 = true
      ∧ (searchFilter testStore none [⟨"author", "alice", true⟩]
        { testIssue with user := some ⟨"alice"⟩ }).1 = false)
    ∧ ((searchFilter testStore none [⟨"is", "assigned", false⟩]
        { testIssue with assignees := none }).1 = false
      ∧ (searchFilter testStore none [⟨"is", "assigned", true⟩]
        { testIssue with assignees := none }).1 = false) := by
  have ha := negation_complements_registered testStore none ⟨"author", "alice", false⟩
    authorFilter (by decide) (by decide) rfl { testIssue with user := some ⟨"alice"⟩ }
  have hb := negation_complements_registered testStore none ⟨"is", "assigned", false⟩
    isFilter (by decide) (by decide) rfl { testIssue with assignees := none }
  exact ⟨ha.1 true rfl, hb.2 () rfl⟩

/-- Counterexample to claim C8 as stated: the ref term with the empty
value K = "" matches the baseline record, although that record's key is
not "" and it has no link whose target key is "" — a term with empty
value compiles to the always-true predicate before the ref factory is
consulted, so "it matches no other record" fails. -/
theorem ref_empty_value_counterexample :
    (searchFilter testStore none [⟨"ref", "", false⟩] testIssue).1 = true
    ∧ testIssue.key ≠ ""
    ∧ testStore.getIssueLinks testIssue = [] :=
  ⟨rfl, by decide, rfl⟩

/-- Claim C8 (amended): for a ref term whose value K is nonempty and not
the `@me` sentinel, when the store resolves K to a record and the store's
link index is bidirectional (a record links to K exactly when K's record
has a link back to it, which is how the spec's reverse lookup works), the
compiled predicate matches exactly the records whose own key equals K or
that have a link whose target key is K. -/
theorem ref_filter_characterization (store : Store) (user : Option User)
    (k : String) (issK : Issue) (issue : Issue)
    (h1 : k ≠ "") (h2 : k ≠ "@me")
    (hk : store.getIssueByKey k = some issK)
    (hbi : ∀ i : Issue, ((store.getIssueLinks i).any fun l => l.target.key == k) =
      ((store.getIssueLinks issK).any fun l => l.target.key == i.key)) :
    (searchFilter store user [⟨"ref", k, false⟩] issue).1 =
      (issue.key == k || (store.getIssueLinks issue).any fun l => l.target.key == k) := by
  have hc : compileTerm store user ⟨"ref", k, false⟩ = referenceFilter store k :=
    compileTerm_registered store user ⟨"ref", k, false⟩ (referenceFilter store) h1 h2 rfl rfl
  rw [searchFilter_singleton, hc]
  unfold referenceFilter
  rw [hk]
  simp only [contains_map_target, hbi issue]

/-- Witness for the amended C8: in a two-record store whose link index
holds the link of "ORG/REPO#5" to "ORG/REPO#7" in both directions, the
search `ref:ORG/REPO#5` matches the linked record "ORG/REPO#7". -/
theorem ref_filter_characterization_witness :
    (searchFilter
      (⟨fun k => if k = "ORG/REPO#5" then some { testIssue with key := "ORG/REPO#5" } else none,
        fun i => if i.key = "ORG/REPO#5" then [⟨"linked-to", ⟨"ORG/REPO#7"⟩⟩]
          else if i.key = "ORG/REPO#7" then [⟨"linked-to", ⟨"ORG/REPO#5"⟩⟩] else []⟩ : Store)
      none [⟨"ref", "ORG/REPO#5", false⟩] { testIssue with key := "ORG/REPO#7" }).1 = true := by
  have h := ref_filter_characterization
    (⟨fun k => if k = "ORG/REPO#5" then some { testIssue with key := "ORG/REPO#5" } else none,
      fun i => if i.key = "ORG/REPO#5" then [⟨"linked-to", ⟨"ORG/REPO#7"⟩⟩]
        else if i.key = "ORG/REPO#7" then [⟨"linked-to", ⟨"ORG/REPO#5"⟩⟩] else []⟩ : Store)
    none "ORG/REPO#5" { testIssue with key := "ORG/REPO#5" } { testIssue with key := "ORG/REPO#7" }
    (by decide) (by decide) (by simp)
    ?_
  · rw [h]
    rfl
  · intro i
    by_cases hi : i.key = "ORG/REPO#5"
    · simp [hi]
    · by_cases hj : i.key = "ORG/REPO#7"
      · simp [hi, hj]
      · simp [hi, hj, Ne.symm hj]

/-- Counterexample to claim C9 as stated: for the commented term with the
empty NAME, the compiled predicate returns true on the baseline record
although its comments field is absent — the empty value compiles to the
always-true predicate before the commented factory is consulted. -/
theorem commented_empty_name_counterexample :
    testIssue.comments = none
    ∧ (searchFilter testStore none [⟨"commented", "", false⟩] testIssue).1 = true :=
  ⟨rfl, rfl⟩

/-- Claim C9 (amended): for a commented:NAME term with NAME nonempty and
not the `@me` sentinel, the compiled predicate returns false, without
throwing (no report to the diagnostic sink), on every record whose
comments field is absent or not a list; when a comment list is present
and every comment carries an author, it matches exactly when some
comment's author login case-insensitively starts with NAME. -/
theorem commented_filter_safe (store : Store) (user : Option User)
    (name : String) (h1 : name ≠ "") (h2 : name ≠ "@me") (issue : Issue) :
    (issue.comments = none →
      searchFilter store user [⟨"commented", name, false⟩] issue = (false, false))
    ∧ (∀ cs, issue.comments = some cs → (∀ c ∈ cs, c.user.isSome) →
      searchFilter store user [⟨"commented", name, false⟩] issue =
        (cs.any fun c =>
          match c.user with
          | some u => (lowerList name).isPrefixOf (lowerList u.login)
          | none => false, false)) := by
  have hc : compileTerm store user ⟨"commented", name, false⟩ = commentedFilter name :=
    compileTerm_registered store user ⟨"commented", name, false⟩ commentedFilter h1 h2 rfl rfl
  have hne : name.data.isEmpty = false := by
    cases hn : name.data with
    | nil =>
      cases name with
      | mk data =>
        simp only at hn
        exact absurd (by rw [hn]) h1
    | cons c t => rfl
  refine ⟨fun hnone => ?_, fun cs hcs hu => ?_⟩
  · rw [searchFilter_singleton, hc]
    unfold commentedFilter
    rw [hnone]
  · have hcf : commentedFilter name issue = commentsSome name cs := by
      unfold commentedFilter
      rw [hcs]
    rw [searchFilter_singleton, hc, hcf, commentsSome_of_users name cs hu,
      any_fuzzy_eq_prefix_test name hne cs]

/-- Witness for the amended C9: `commented:alice` does not match (and
does not throw on) the comment-less baseline record, and matches a record
carrying a comment authored by "Alice99". -/
theorem commented_filter_safe_witness :
    searchFilter testStore none [⟨"commented", "alice", false⟩] testIssue = (false, false)
    ∧ searchFilter testStore none [⟨"commented", "alice", false⟩]
      { testIssue with comments := some [⟨some ⟨"Alice99"⟩⟩] } = (true, false) := by
  have h1 := commented_filter_safe testStore none "alice" (by decide) (by decide) testIssue
  have h2 := commented_filter_safe testStore none "alice" (by decide) (by decide)
    { testIssue with comments := some [⟨some ⟨"Alice99"⟩⟩] }
  refine ⟨h1.1 rfl, ?_⟩
  rw [h2.2 [⟨some ⟨"Alice99"⟩⟩] rfl (by simp)]
  rfl

/-- Claim C10: the compiled predicate returns true exactly when every
term's (possibly negated) matcher returns a truthy result on the record
without throwing; consequently the result is invariant under permutation
of the term list. -/
theorem conjunction_order_invariant (store : Store) (user : Option User)
    (terms : List Term) (issue : Issue) :
    ((searchFilter store user terms issue).1 =
      terms.all fun t =>
        match compileTerm store user t issue with
        | .ok true => true
        | _ => false)
    ∧ (∀ terms2, List.Perm terms terms2 →
      (searchFilter store user terms issue).1 = (searchFilter store user terms2 issue).1) := by
  have key : ∀ ts : List Term, (searchFilter store user ts issue).1 =
      ts.all fun t =>
        match compileTerm store user t issue with
        | .ok true => true
        | _ => false := by
    intro ts
    induction ts with
    | nil => rfl
    | cons t rest ih =>
      rw [searchFilter_cons]
      rcases h : compileTerm store user t issue with e | b
      · simp [h]
      · cases b
        · simp [h]
        · simpa [h] using ih
  refine ⟨key terms, fun terms2 hp => ?_⟩
  rw [key terms, key terms2]
  rw [Bool.eq_iff_iff, List.all_eq_true, List.all_eq_true]
  exact ⟨fun H x hx => H x (hp.mem_iff.mpr hx), fun H x hx => H x (hp.mem_iff.mp hx)⟩

/-- Witness for C10: swapping the two terms of `is:open label:bug` does
not change the result on the baseline record. -/
theorem conjunction_order_invariant_witness :
    (searchFilter testStore none [⟨"is", "open", false⟩, ⟨"label", "bug", false⟩] testIssue).1 =
      (searchFilter testStore none [⟨"label", "bug", false⟩, ⟨"is", "open", false⟩] testIssue).1 := by
  exact (conjunction_order_invariant testStore none
    [⟨"is", "open", false⟩, ⟨"label", "bug", false⟩] testIssue).2
    [⟨"label", "bug", false⟩, ⟨"is", "open", false⟩]
    (List.Perm.swap (⟨"label", "bug", false⟩ : Term) ⟨"is", "open", false⟩ [])

end Wuffle
